import Mathlib

/-!
Verification development for the mortality-data ingestion pipeline
(src/mortalidad/data_loader.py).  The pandas/pandera code is shallowly
embedded: spreadsheet cells are values of type Option String (none is a
missing value, some s is the textual rendering of the cell, so a float NaN
cell rendered through python str() becomes the text "nan" where the code
does that), tables are lists of rows, and the library calls used by the
code (str.strip, str.replace, str.zfill, fillna, merge, drop_duplicates,
pandera validation with and without lazy=True) are modelled by the
executable functions below, each annotated with the source lines it
embeds.
-/

set_option maxHeartbeats 1000000

deriving instance DecidableEq for Except

namespace Mortalidad

/-- A spreadsheet cell: none models a missing value (NA/NaN). -/
abbrev Cell := Option String

/-- Python str.strip on a character list: drop whitespace from both ends. -/
def pyStripL (l : List Char) : List Char :=
  ((l.dropWhile Char.isWhitespace).reverse.dropWhile Char.isWhitespace).reverse

/-- Python str.strip, pandas Series.str.strip (data_loader.py line 125). -/
def pyStrip (s : String) : String := String.mk (pyStripL s.data)

/-- Python str.replace(".0", "") : removes every non-overlapping occurrence
of the two-character substring ".0", scanning left to right.  This embeds
the regex=False replace at data_loader.py line 126. -/
def replaceDot0L : List Char → List Char
  | [] => []
  | [c] => [c]
  | c :: d :: rest =>
    if c = '.' ∧ d = '0' then replaceDot0L rest
    else c :: replaceDot0L (d :: rest)

/-- Regex replace of a trailing ".0" (data_loader.py line 127): removes the
suffix ".0" when present, otherwise leaves the string unchanged. -/
def dot0SuffixL (l : List Char) : List Char :=
  match l.reverse with
  | '0' :: '.' :: rest => rest.reverse
  | _ => l

/-- Python str.zfill(w) (data_loader.py line 129): left-pad with the digit
zero up to width w; a leading sign stays in front of the padding; a string
already at least w characters long is returned unchanged (no truncation). -/
def zfillL (l : List Char) (w : Nat) : List Char :=
  if w ≤ l.length then l
  else
    match l with
    | [] => List.replicate w '0'
    | c :: rest =>
      if c = '-' ∨ c = '+' then c :: (List.replicate (w - l.length) '0' ++ rest)
      else List.replicate (w - l.length) '0' ++ (c :: rest)

/-- String-level zfill. -/
def zfillS (s : String) (w : Nat) : String := String.mk (zfillL s.data w)

/-- The cleaning stage of _normalize_code before padding: strip, replace
every ".0", then drop a remaining trailing ".0" (lines 125-127). -/
def cleanCodeL (l : List Char) : List Char :=
  dot0SuffixL (replaceDot0L (pyStripL l))

/-- Embedding of _normalize_code (data_loader.py lines 122-130).  The
series is processed element-wise: astype("string") keeps NA, the str
accessors propagate NA, fillna("") turns NA into the empty string, and
zfill pads.  A missing cell therefore becomes w zero characters. -/
def _normalize_code (v : Cell) (w : Nat) : String :=
  match v with
  | none => String.mk (zfillL [] w)
  | some s => String.mk (zfillL (cleanCodeL s.data) w)

/-- Length of the cleaned text fed to zfill by _normalize_code. -/
def cleanedWidth (v : Cell) : Nat :=
  match v with
  | none => 0
  | some s => (cleanCodeL s.data).length

/-- Reference definition written from the specification text (section 4.1
and claim C5): strip surrounding whitespace, remove a ".0" suffix only
when it is trailing, discard all remaining non-digit characters, then
left-pad the result with zeros to the requested width. -/
def normalize_code_spec (v : Cell) (w : Nat) : String :=
  match v with
  | none => String.mk (List.replicate w '0')
  | some s =>
    String.mk (List.replicate (w - ((dot0SuffixL (pyStripL s.data)).filter Char.isDigit).length) '0'
      ++ (dot0SuffixL (pyStripL s.data)).filter Char.isDigit)

/-- Python str.upper restricted to ASCII letters, as used on cause codes
(data_loader.py line 248). -/
def strUpper (s : String) : String := String.mk (s.data.map Char.toUpper)

/-- Python str.lower restricted to ASCII letters (used for the "nan"
sentinel test in _prepare_causes, lines 279 and 286). -/
def strLower (s : String) : String := String.mk (s.data.map Char.toLower)

/-- Python str.startswith, pandas str.startswith (line 261). -/
def strStartsWith (s p : String) : Bool := p.data.isPrefixOf s.data

/-- Embedding of _normalize_sex (data_loader.py lines 133-156).  A missing
value returns NR directly; otherwise the trimmed upper-cased text is looked
up in the synonym table and anything not mapping into the allowed set
collapses to NR. -/
def sexSynonyms : List (String × String) :=
  [("MASCULINO", "M"), ("HOMBRE", "M"), ("1", "M"),
   ("FEMENINO", "F"), ("MUJER", "F"), ("2", "F"),
   ("F", "F"), ("M", "M"),
   ("3", "NR"), ("9", "NR"), ("SIN INFORMACION", "NR"),
   ("SIN INFORMACIÓN", "NR"), ("NR", "NR"), ("0", "NR")]

def _normalize_sex (v : Cell) : String :=
  match v with
  | none => "NR"
  | some s =>
    let text := strUpper (pyStrip s)
    let normalized := (sexSynonyms.lookup text).getD text
    if normalized = "M" ∨ normalized = "F" ∨ normalized = "NR" then normalized
    else "NR"

/-- RECORDS_COLUMN_MAP (data_loader.py lines 38-52), as the ordered list of
synonym-column / canonical-column pairs of the python dict. -/
def RECORDS_COLUMN_MAP : List (String × String) :=
  [("DPTO_OCURRE", "depto_cod"), ("DEPTO_OCURRE", "depto_cod"),
   ("MUN_OCURRE", "muni_cod"), ("MUNI_OCURRE", "muni_cod"),
   ("SEXO", "sexo"), ("SEXO_DEF", "sexo"),
   ("GRUPO_EDAD1", "grupo_edad"),
   ("FECHA_DEF", "fecha"), ("FECHA_OCURR", "fecha"),
   ("CAUSA_DEF", "causa_cod"),
   ("COD_DEPARTAMENTO", "depto_cod"), ("COD_MUNICIPIO", "muni_cod"),
   ("COD_MUERTE", "causa_cod")]

/-- The six canonical fields _prepare_records must standardize
(data_loader.py lines 183-190). -/
def standardColumns : List String :=
  ["depto_cod", "muni_cod", "sexo", "grupo_edad", "fecha", "causa_cod"]

/-- GRUPO_EDAD_LABELS (data_loader.py lines 78-91). -/
def GRUPO_EDAD_LABELS : List (Int × String) :=
  [(1, "Menor de 1 año"), (2, "1 a 4 años"), (3, "5 a 9 años"),
   (4, "10 a 14 años"), (5, "15 a 19 años"), (6, "20 a 24 años"),
   (7, "25 a 34 años"), (8, "35 a 44 años"), (9, "45 a 54 años"),
   (10, "55 a 64 años"), (11, "65 a 74 años"), (12, "75 años o más")]

/-- A raw table: the list of column names and the rows, each row an
association list from column name to cell. -/
abbrev Row := List (String × Cell)

structure RawTable where
  cols : List String
  rows : List Row

/-- Cell access: DataFrame column access with a missing column behaving as
an all-NA column (matching raw.get used at data_loader.py lines 220-221). -/
def rowGet (r : Row) (c : String) : Cell :=
  match r.find? (fun p => p.1 = c) with
  | some p => p.2
  | none => none

/-- A parsed calendar date (the pipeline only ever builds first-of-month
dates on the reachable branch, data_loader.py lines 222-229). -/
structure PDate where
  year : Nat
  month : Nat
  day : Nat
deriving DecidableEq

/-- Decimal value of a digit list. -/
def digitsVal (l : List Char) : Nat :=
  l.foldl (fun a c => a * 10 + (c.toNat - 48)) 0

/-- Parse an optionally signed integer from trimmed text; none when the
text is empty or contains a non-digit.  Models the numeric coercion done
by pd.to_numeric / pd.to_datetime on the integer-valued cells the claims
exercise. -/
def parseIntL (l : List Char) : Option Int :=
  match l with
  | [] => none
  | '-' :: ds => if ds ≠ [] ∧ ds.all Char.isDigit then some (-(digitsVal ds : Int)) else none
  | ds => if ds.all Char.isDigit then some (digitsVal ds : Int) else none

/-- pd.to_numeric(..., errors="raise") followed by astype("int16")
(data_loader.py lines 250-252): a missing value makes the astype call
raise, a non-numeric text makes to_numeric raise; both surface as errors
of the read. -/
def toNumericInt (c : Cell) : Except String Int :=
  match c with
  | none => .error "No se pudo convertir grupo_edad: valor ausente"
  | some s =>
    match parseIntL (pyStripL s.data) with
    | some i => .ok i
    | none => .error "No se pudo convertir grupo_edad a entero"

/-- pd.to_datetime({year, month, day: 1}, errors="coerce") per row
(data_loader.py lines 222-229): none (NaT) when either part is missing or
non-numeric, when the month is outside 1..12, or when the year falls
outside the pandas Timestamp range. -/
def buildYmDate (y m : Cell) : Option PDate :=
  match y, m with
  | some ys, some ms =>
    match parseIntL (pyStripL ys.data), parseIntL (pyStripL ms.data) with
    | some yi, some mi =>
      if 1 ≤ mi ∧ mi ≤ 12 ∧ 1678 ≤ yi ∧ yi ≤ 2261 then
        some ⟨yi.toNat, mi.toNat, 1⟩
      else none
    | _, _ => none
  | _, _ => none

/-- NA-propagating string concatenation, as pandas produces NA when either
operand of Series + Series is NA (data_loader.py line 215). -/
def optConcat (a b : Cell) : Cell :=
  match a, b with
  | some x, some y => some (x ++ y)
  | _, _ => none

/-- Intermediate row of _prepare_records before the normalization of lines
246-262. -/
structure PreRec where
  depto_cod : Cell
  muni_cod : Cell
  sexo : Cell
  grupo_edad : Cell
  causa_cod : Cell
  fecha : Option PDate
deriving DecidableEq

/-- One canonical mortality record as produced by _prepare_records. -/
structure Record where
  depto_cod : String
  muni_cod : String
  sexo : String
  grupo_edad : Int
  fecha : PDate
  causa_cod : Option String
  anio : Nat
  mes : Nat
  grupo_edad_label : String
  homicidio_x95 : Nat
deriving DecidableEq

/-- The year/month branch of _prepare_records (data_loader.py lines
205-232): when COD_DANE is present the municipality code is taken from it
directly (astype string + strip); otherwise it is the concatenation of the
department code zero-filled to 2 and the municipality code zero-filled
to 3.  The synthetic date is the first of the month. -/
def ymBuild (hasDane : Bool) (r : Row) : PreRec :=
  let muni :=
    if hasDane then (rowGet r "COD_DANE").map pyStrip
    else optConcat ((rowGet r "COD_DEPARTAMENTO").map (fun s => zfillS (pyStrip s) 2))
                   ((rowGet r "COD_MUNICIPIO").map (fun s => zfillS (pyStrip s) 3))
  { depto_cod := rowGet r "COD_DEPARTAMENTO"
    muni_cod := muni
    sexo := rowGet r "SEXO"
    grupo_edad := rowGet r "GRUPO_EDAD1"
    causa_cod := rowGet r "COD_MUERTE"
    fecha := buildYmDate (rowGet r "AÑO") (rowGet r "MES") }

/-- The shared normalization tail of _prepare_records (data_loader.py
lines 246-262): code widths 2 and 5, upper-cased cause code with NA kept,
sex mapping, integer age group (raising), year/month derived from the
date, label lookup with the unclassified fallback, and the X95 prefix
flag computed with na=False. -/
def finalizeRecord (p : PreRec) : Except String Record :=
  match toNumericInt p.grupo_edad with
  | .error e => .error e
  | .ok ge =>
    match p.fecha with
    | none => .error "No se pudo convertir fecha: valor ausente"
    | some d =>
      let causa := p.causa_cod.map (fun s => strUpper (pyStrip s))
      .ok { depto_cod := _normalize_code p.depto_cod 2
            muni_cod := _normalize_code p.muni_cod 5
            sexo := _normalize_sex p.sexo
            grupo_edad := ge
            fecha := d
            causa_cod := causa
            anio := d.year
            mes := d.month
            grupo_edad_label := (GRUPO_EDAD_LABELS.lookup ge).getD "Sin clasificación"
            homicidio_x95 := if (causa.map (fun s => strStartsWith s "X95")).getD false then 1 else 0 }

/-- Columns demanded by the year/month scheme (data_loader.py line 205). -/
def ymRequired : List String :=
  ["AÑO", "MES", "COD_DEPARTAMENTO", "COD_MUNICIPIO", "COD_MUERTE"]

/-- Embedding of _prepare_records (data_loader.py lines 182-263).

Date-columns branch (lines 193-204): the code computes
set(RECORDS_COLUMN_MAP) - available, i.e. it demands that EVERY synonym
spelling in the map be present, and raises the missing-columns ValueError
otherwise.  When every synonym is present, the rename maps several source
columns onto each canonical name (for example both FECHA_DEF and
FECHA_OCURR become fecha), so the selected frame has duplicated labels,
records["fecha"] is then a two-column frame, and pd.to_datetime on it
raises (it only accepts a frame carrying year/month/day components).  The
branch therefore never returns rows; the two possible errors are kept
distinct below.

Year/month branch (lines 205-233): lenient, rows whose synthetic date is
NaT are dropped by dropna(subset=["fecha"]), then the normalization tail
runs.  Any other column set raises the unsupported-structure error
(lines 234-238). -/
def _prepare_records (tbl : RawTable) : Except String (List Record) :=
  if tbl.cols.contains "FECHA_DEF" || tbl.cols.contains "FECHA_OCURR" then
    let missing := (RECORDS_COLUMN_MAP.map Prod.fst).filter (fun k => ¬ tbl.cols.contains k)
    if missing.isEmpty then
      .error "to_datetime: la selección con etiquetas duplicadas produce un DataFrame y la conversión falla"
    else
      .error ("Columnas faltantes en registros principales: " ++ String.intercalate ", " missing)
  else if ymRequired.all (fun c => tbl.cols.contains c) then
    let hasDane := tbl.cols.contains "COD_DANE"
    let kept := (tbl.rows.map (ymBuild hasDane)).filter (fun p => p.fecha.isSome)
    kept.mapM finalizeRecord
  else
    .error "Estructura de NoFetal2019.xlsx no soportada. Se requieren columnas FECHA_DEF/FECHA_OCURR o AÑO/MES."

/-- One row of the wide-format cause sheet, restricted to the four columns
_prepare_causes reads (data_loader.py lines 268-271): 3-char code, 3-char
description, 4-char code, 4-char description. -/
structure WideRow where
  code3 : Cell
  desc3 : Cell
  code4 : Cell
  desc4 : Cell
deriving DecidableEq

/-- One cause-catalog entry (causa_cod, causa). -/
structure CauseEntry where
  causa_cod : String
  causa : String
deriving DecidableEq

/-- python str(row.get(col, "")) on a cell of a present column: a NaN cell
renders as the literal text "nan" (this is why the code compares the
lower-cased code against "nan" at lines 279 and 286). -/
def cellText : Cell → String
  | none => "nan"
  | some s => s

/-- The row-wise expansion of one wide-format cause row (data_loader.py
lines 276-292).  The python truthiness chains desc or fallback apply to
the stripped text, so only the empty string triggers a fallback; the text
"nan" coming from a missing cell does not. -/
def emitWideRow (r : WideRow) : List CauseEntry :=
  let code3 := pyStrip (cellText r.code3)
  let desc3 := pyStrip (cellText r.desc3)
  let code4 := pyStrip (cellText r.code4)
  let desc4 := pyStrip (cellText r.desc4)
  let e3 :=
    if code3 ≠ "" ∧ strLower code3 ≠ "nan" then
      [CauseEntry.mk (strUpper code3) (if desc3 = "" then "Sin descripción" else desc3)]
    else []
  let e4 :=
    if code4 ≠ "" ∧ strLower code4 ≠ "nan" then
      [CauseEntry.mk (strUpper code4)
        (if desc4 ≠ "" then desc4 else if desc3 ≠ "" then desc3 else "Sin descripción")]
    else []
  e3 ++ e4

/-- dropna(how="all") on the four wide-format columns (line 275). -/
def rowNotAllNa (r : WideRow) : Bool :=
  r.code3.isSome || r.desc3.isSome || r.code4.isSome || r.desc4.isSome

/-- pandas drop_duplicates keeping the first occurrence of each key
(data_loader.py lines 299, 308, 442): worker with the set of already seen
keys. -/
def dedupGo {α β : Type} (f : α → β) [DecidableEq β] (seen : List β) : List α → List α
  | [] => []
  | x :: xs =>
    if f x ∈ seen then dedupGo f seen xs
    else x :: dedupGo f (f x :: seen) xs

/-- pandas drop_duplicates(subset=key), keep="first" (the default). -/
def dedupKeepFirst {α β : Type} (f : α → β) [DecidableEq β] (l : List α) : List α :=
  dedupGo f [] l

/-- Wide-format branch of _prepare_causes (data_loader.py lines 273-300):
drop all-NA rows, expand row-wise, fail when nothing was extracted,
deduplicate on causa_cod keeping the first occurrence. -/
def _prepare_causes_wide (rows : List WideRow) : Except String (List CauseEntry) :=
  let recs := (rows.filter rowNotAllNa).flatMap emitWideRow
  if recs.isEmpty then
    .error "No se pudieron extraer códigos de la hoja de causas CIE-10."
  else
    .ok (dedupKeepFirst CauseEntry.causa_cod recs)

/-- The four enrichable fields of one geography row; coordinates are
carried opaquely (they are only moved around by the merges, never
computed with), modelled as integers. -/
structure GeoFields where
  depto : Option String
  municipio : Option String
  lat : Option Int
  lon : Option Int
deriving DecidableEq

/-- column.fillna(other): keep a present value, fill a missing one
(data_loader.py lines 387 and 429). -/
def fillMissing {α : Type} (cur src : Option α) : Option α :=
  match cur with
  | some v => some v
  | none => src

/-- fillna applied to the four enrichable columns after one left merge. -/
def fillGeo (cur src : GeoFields) : GeoFields :=
  { depto := fillMissing cur.depto src.depto
    municipio := fillMissing cur.municipio src.municipio
    lat := fillMissing cur.lat src.lat
    lon := fillMissing cur.lon src.lon }

/-- Left-merge lookup of an enrichment source on the composite key
(depto_cod, muni_cod): the first row of the source with that key, if any. -/
def lookupGeo (tbl : List ((String × String) × GeoFields)) (k : String × String) :
    Option GeoFields :=
  (tbl.find? (fun p => p.1 = k)).map (fun p => p.2)

/-- The two enrichment passes of _prepare_divipola for one primary row
(data_loader.py lines 355-390 then 392-434): first the embedded Hoja3
sheet, second the external dane_municipios.csv catalog, each pass filling
only the currently missing fields.  A source in which the key is absent
leaves the row unchanged (left merge producing NaN, fillna of NaN is a
no-op). -/
def enrichRow (k : String × String) (f : GeoFields)
    (emb csv : List ((String × String) × GeoFields)) : GeoFields :=
  let p1 :=
    match lookupGeo emb k with
    | none => f
    | some g => fillGeo f g
  match lookupGeo csv k with
  | none => p1
  | some g => fillGeo p1 g

/-- Enrichment of the whole primary catalog, row by row. -/
def enrichDivipola (primary : List ((String × String) × GeoFields))
    (emb csv : List ((String × String) × GeoFields)) :
    List ((String × String) × GeoFields) :=
  primary.map (fun p => (p.1, enrichRow p.1 p.2 emb csv))

/-- One geography-catalog row as _prepare_divipola returns it (codes
normalized, names and coordinates possibly missing). -/
structure GeoRow where
  depto_cod : String
  muni_cod : String
  depto : Option String
  municipio : Option String
  lat : Option Int
  lon : Option Int
deriving DecidableEq

/-- Composite key of a geography row (drop_duplicates subset at
data_loader.py line 442 and merge key at lines 449-454). -/
def geoKey (g : GeoRow) : String × String := (g.depto_cod, g.muni_cod)

/-- One row of the final merged dataset, the fixed column selection of
_merge_datasets (data_loader.py lines 455-473). -/
structure FinalRow where
  depto_cod : String
  depto : Option String
  muni_cod : String
  municipio : Option String
  sexo : String
  grupo_edad : Int
  grupo_edad_label : String
  fecha : PDate
  anio : Nat
  mes : Nat
  causa_cod : Option String
  causa : Option String
  homicidio_x95 : Nat
  lat : Option Int
  lon : Option Int
deriving DecidableEq

/-- pandas left merge: every left row paired with each matching right row,
or with none when no right row matches. -/
def leftJoin {α β : Type} (left : List α) (right : List β) (p : α → β → Bool) :
    List (α × Option β) :=
  left.flatMap (fun a =>
    match right.filter (p a) with
    | [] => [(a, none)]
    | ms => ms.map (fun b => (a, some b)))

/-- Column selection of _merge_datasets on one joined row. -/
def mkFinal (x : (Record × Option CauseEntry) × Option GeoRow) : FinalRow :=
  let r := x.1.1
  { depto_cod := r.depto_cod
    depto := x.2.bind GeoRow.depto
    muni_cod := r.muni_cod
    municipio := x.2.bind GeoRow.municipio
    sexo := r.sexo
    grupo_edad := r.grupo_edad
    grupo_edad_label := r.grupo_edad_label
    fecha := r.fecha
    anio := r.anio
    mes := r.mes
    causa_cod := r.causa_cod
    causa := x.1.2.map CauseEntry.causa
    homicidio_x95 := r.homicidio_x95
    lat := x.2.bind GeoRow.lat
    lon := x.2.bind GeoRow.lon }

/-- Embedding of _merge_datasets (data_loader.py lines 445-473): left join
on causa_cod (a missing cause code matches nothing), then left join on the
composite geography key with validate="many_to_one", which raises a
MergeError when the right side carries duplicate keys. -/
def _merge_datasets (records : List Record) (causes : List CauseEntry)
    (divipola : List GeoRow) : Except String (List FinalRow) :=
  let m1 := leftJoin records causes
    (fun r c => decide (r.causa_cod = some c.causa_cod))
  if (divipola.map geoKey).Nodup then
    .ok ((leftJoin m1 divipola
      (fun p g => decide (p.1.depto_cod = g.depto_cod ∧ p.1.muni_cod = g.muni_cod))).map mkFinal)
  else
    .error "MergeError: Merge keys are not unique in right dataset; not a many-to-one merge"

/-- The per-column checks of MORTALITY_SCHEMA (data_loader.py lines
93-112), in the insertion order of the python dict, which is the order in
which pandera evaluates columns.  A column declared non-nullable rejects a
missing value; checks on nullable columns (causa, lat, lon) and the pure
dtype column fecha always pass here because the row type already carries
the coerced type. -/
def MORTALITY_SCHEMA : List (String × (FinalRow → Bool)) :=
  [("depto_cod: str_length 2 5", fun r => decide (2 ≤ r.depto_cod.length ∧ r.depto_cod.length ≤ 5)),
   ("depto: str_length 1", fun r =>
      match r.depto with
      | some s => decide (1 ≤ s.length)
      | none => false),
   ("muni_cod: str_length 4 6", fun r => decide (4 ≤ r.muni_cod.length ∧ r.muni_cod.length ≤ 6)),
   ("municipio: str_length 1", fun r =>
      match r.municipio with
      | some s => decide (1 ≤ s.length)
      | none => false),
   ("sexo: isin F M NR", fun r => decide (r.sexo = "F" ∨ r.sexo = "M" ∨ r.sexo = "NR")),
   ("grupo_edad: isin 1..12", fun r => decide (1 ≤ r.grupo_edad ∧ r.grupo_edad ≤ 12)),
   ("grupo_edad_label: str_length 1", fun r => decide (1 ≤ r.grupo_edad_label.length)),
   ("fecha: datetime", fun _ => true),
   ("anio: eq 2019", fun r => decide (r.anio = 2019)),
   ("mes: isin 1..12", fun r => decide (1 ≤ r.mes ∧ r.mes ≤ 12)),
   ("causa_cod: str_length 3 5", fun r =>
      match r.causa_cod with
      | some s => decide (3 ≤ s.length ∧ s.length ≤ 5)
      | none => false),
   ("causa: nullable", fun _ => true),
   ("homicidio_x95: isin 0 1", fun r => decide (r.homicidio_x95 = 0 ∨ r.homicidio_x95 = 1)),
   ("lat: nullable float", fun _ => true),
   ("lon: nullable float", fun _ => true)]

/-- The schema rules violated somewhere in the frame, in schema order. -/
def schemaViolations (df : List FinalRow) : List String :=
  (MORTALITY_SCHEMA.filter (fun c => ¬ df.all c.2)).map Prod.fst

/-- pandera DataFrameSchema.validate: with lazy=True every failing
column/check pair is collected into one aggregated SchemaErrors
(data_loader.py line 524); without lazy (the default, line 502) the first
failing check raises a SchemaError on its own and the rest are never
reported. -/
def validateSchema (lazy : Bool) (df : List FinalRow) :
    Except (List String) (List FinalRow) :=
  match schemaViolations df with
  | [] => .ok df
  | v :: vs => .error (if lazy then v :: vs else [v])

/-- Filesystem state relevant to load_data: the modification times of the
three raw source files and the cache artifact (content and modification
time) when it exists. -/
structure FsState where
  sources : List Nat
  cache : Option (List FinalRow × Nat)
deriving DecidableEq

/-- _latest_modification (data_loader.py lines 167-168). -/
def _latest_modification (l : List Nat) : Nat := l.foldl max 0

/-- The STALE path of load_data (data_loader.py lines 504-529): run the
pipeline (its deterministic output on the current sources is the argument
computed, already fill-defaulted and age-filtered as in lines 518-522),
validate with lazy=True, persist the validated frame as the new artifact
stamped with the current time, and return it.  A validation failure
propagates and writes nothing. -/
def runPipeline (computed : List FinalRow) (fs : FsState) (now : Nat) :
    Except (List String) (List FinalRow) × FsState :=
  match validateSchema true computed with
  | .ok d => (.ok d, { sources := fs.sources, cache := some (d, now) })
  | .error e => (.error e, fs)

/-- Embedding of load_data (data_loader.py lines 485-529): when
force_refresh is off, the artifact exists, and its modification time is at
least the newest source modification time, the artifact is read back and
validated WITHOUT lazy (line 502) and the filesystem is untouched;
otherwise the full pipeline runs. -/
def load_data (computed : List FinalRow) (fs : FsState) (force : Bool) (now : Nat) :
    Except (List String) (List FinalRow) × FsState :=
  match fs.cache with
  | some (df, mt) =>
    if force = false ∧ _latest_modification fs.sources ≤ mt then
      (validateSchema false df, fs)
    else runPipeline computed fs now
  | none => runPipeline computed fs now

/-! Concrete inputs used by counterexamples and witnesses. -/

/-- The raw mortality table built by the repository test fixture
(tests/test_data_loader.py, synthetic_env): one synonym column per
canonical field, FECHA_DEF present. -/
def testFixtureTable : RawTable :=
  { cols := ["DPTO_OCURRE", "MUN_OCURRE", "SEXO", "GRUPO_EDAD1", "FECHA_DEF", "CAUSA_DEF"]
    rows := [[("DPTO_OCURRE", some "11"), ("MUN_OCURRE", some "11001"),
              ("SEXO", some "M"), ("GRUPO_EDAD1", some "5"),
              ("FECHA_DEF", some "2019-05-10"), ("CAUSA_DEF", some "x95")]] }

/-- A year/month table with a COD_DANE column whose value does not start
with the department code. -/
def daneTable : RawTable :=
  { cols := ["AÑO", "MES", "COD_DEPARTAMENTO", "COD_MUNICIPIO", "COD_MUERTE",
             "COD_DANE", "SEXO", "GRUPO_EDAD1"]
    rows := [[("AÑO", some "2019"), ("MES", some "5"),
              ("COD_DEPARTAMENTO", some "05"), ("COD_MUNICIPIO", some "001"),
              ("COD_MUERTE", some "X95"), ("COD_DANE", some "99999"),
              ("SEXO", some "1"), ("GRUPO_EDAD1", some "5")]] }

/-- The record _prepare_records emits for daneTable. -/
def daneRecord : Record :=
  { depto_cod := "05", muni_cod := "99999", sexo := "M", grupo_edad := 5,
    fecha := ⟨2019, 5, 1⟩, causa_cod := some "X95", anio := 2019, mes := 5,
    grupo_edad_label := "15 a 19 años", homicidio_x95 := 1 }

/-- A lenient-scheme table with three rows; the middle row carries the
month 13, which cannot form a date. -/
def lenientTable : RawTable :=
  { cols := ["AÑO", "MES", "COD_DEPARTAMENTO", "COD_MUNICIPIO", "COD_MUERTE",
             "SEXO", "GRUPO_EDAD1"]
    rows := [[("AÑO", some "2019"), ("MES", some "5"),
              ("COD_DEPARTAMENTO", some "05"), ("COD_MUNICIPIO", some "001"),
              ("COD_MUERTE", some "x950"), ("SEXO", some "1"), ("GRUPO_EDAD1", some "5")],
             [("AÑO", some "2019"), ("MES", some "13"),
              ("COD_DEPARTAMENTO", some "05"), ("COD_MUNICIPIO", some "002"),
              ("COD_MUERTE", some "B20"), ("SEXO", some "1"), ("GRUPO_EDAD1", some "6")],
             [("AÑO", some "2019"), ("MES", some "6"),
              ("COD_DEPARTAMENTO", some "05"), ("COD_MUNICIPIO", some "003"),
              ("COD_MUERTE", some "A10"), ("SEXO", some "2"), ("GRUPO_EDAD1", some "7")]] }

/-- First surviving record of lenientTable. -/
def lenientRecord1 : Record :=
  { depto_cod := "05", muni_cod := "05001", sexo := "M", grupo_edad := 5,
    fecha := ⟨2019, 5, 1⟩, causa_cod := some "X950", anio := 2019, mes := 5,
    grupo_edad_label := "15 a 19 años", homicidio_x95 := 1 }

/-- Second surviving record of lenientTable (the month-13 row is gone). -/
def lenientRecord3 : Record :=
  { depto_cod := "05", muni_cod := "05003", sexo := "F", grupo_edad := 7,
    fecha := ⟨2019, 6, 1⟩, causa_cod := some "A10", anio := 2019, mes := 6,
    grupo_edad_label := "25 a 34 años", homicidio_x95 := 0 }

/-- A minimal table taking the strict date-columns branch. -/
def strictTable : RawTable := { cols := ["FECHA_DEF"], rows := [] }

/-- A dataset row that passes every MORTALITY_SCHEMA check. -/
def goodRow : FinalRow :=
  { depto_cod := "11", depto := some "Bogota", muni_cod := "11001",
    municipio := some "Bogota", sexo := "M", grupo_edad := 5,
    grupo_edad_label := "15 a 19 años", fecha := ⟨2019, 5, 1⟩, anio := 2019,
    mes := 5, causa_cod := some "X95", causa := some "Agresion con arma de fuego",
    homicidio_x95 := 1, lat := none, lon := none }

/-- A dataset row with two independent schema violations: sexo is outside
the allowed set AND anio is not 2019. -/
def badRow : FinalRow :=
  { goodRow with sexo := "X", anio := 2020 }

/-- A filesystem state whose FRESH cache artifact holds the corrupt frame
[badRow]. -/
def fsCorrupt : FsState := { sources := [3], cache := some ([badRow], 5) }

/-- A filesystem state with no cache artifact yet. -/
def fsStart : FsState := { sources := [3], cache := none }

/-- The state after the first pipeline run of the idempotence witness. -/
def fsAfter : FsState := { sources := [3], cache := some ([goodRow], 5) }

/-- Concrete geo-enrichment inputs: the primary row is missing its
department name, both sources supply one. -/
def geoKeyW : String × String := ("05", "05001")

def geoPrimaryW : GeoFields := { depto := none, municipio := some "X", lat := none, lon := none }

def geoEmbW : List ((String × String) × GeoFields) :=
  [(geoKeyW, { depto := some "Antioquia", municipio := none, lat := some 6, lon := none })]

def geoCsvW : List ((String × String) × GeoFields) :=
  [(geoKeyW, { depto := some "ANTIOQUIA", municipio := some "Y", lat := some 7, lon := some 8 })]

/-- A wide cause row whose 4-char description cell is a blank string (it
strips to empty, so the python or-chain falls back). -/
def wideRowBlank : WideRow :=
  { code3 := some "A10", desc3 := some "Colera", code4 := some " a109 ", desc4 := some "  " }

/-- A wide cause row whose 4-char description cell is missing (NaN): its
text renders as "nan". -/
def wideRowNan : WideRow :=
  { code3 := some "A10", desc3 := some "Colera", code4 := some "A109", desc4 := none }

/-- Wide cause rows for the merge witness. -/
def wideRowsW : List WideRow :=
  [{ code3 := some "A10", desc3 := some "C", code4 := some "A109", desc4 := some "D" }]

/-- A geography row for the merge witness, listed twice to exercise the
deduplication. -/
def geoRowW : GeoRow :=
  { depto_cod := "05", muni_cod := "99999", depto := some "Antioquia",
    municipio := some "Pueblo", lat := none, lon := none }

/-- A year/month row without COD_DANE and with plain digit codes, for the
amended prefix-invariant witness. -/
def ymRowW : Row :=
  [("COD_DEPARTAMENTO", some "5"), ("COD_MUNICIPIO", some "1"),
   ("SEXO", some "2"), ("GRUPO_EDAD1", some "3"),
   ("AÑO", some "2019"), ("MES", some "7"), ("COD_MUERTE", some "A10")]

/-- The record finalizeRecord produces from ymRowW. -/
def ymRecW : Record :=
  { depto_cod := "05", muni_cod := "05001", sexo := "F", grupo_edad := 3,
    fecha := ⟨2019, 7, 1⟩, causa_cod := some "A10", anio := 2019, mes := 7,
    grupo_edad_label := "5 a 9 años", homicidio_x95 := 0 }

/-! Helper lemmas. -/

theorem isDigit_not_ws {c : Char} (h : c.isDigit = true) : c.isWhitespace = false := by
  rcases hws : c.isWhitespace with _ | _
  · rfl
  · exfalso
    simp only [Char.isWhitespace, Bool.or_eq_true, decide_eq_true_eq] at hws
    rcases hws with ((h1 | h1) | h1) | h1 <;> subst h1 <;> exact absurd h (by decide)

theorem isDigit_ne {c : Char} (h : c.isDigit = true) : c ≠ '.' ∧ c ≠ '-' ∧ c ≠ '+' := by
  refine ⟨?_, ?_, ?_⟩ <;> rintro rfl <;> exact absurd h (by decide)

theorem dropWhile_eq_self_of_all {p : Char → Bool} {l : List Char}
    (h : ∀ c ∈ l, p c = false) : l.dropWhile p = l := by
  cases l with
  | nil => rfl
  | cons a l => simp [List.dropWhile_cons, h a (by simp)]

theorem pyStripL_eq_self {l : List Char} (h : ∀ c ∈ l, c.isWhitespace = false) :
    pyStripL l = l := by
  unfold pyStripL
  rw [dropWhile_eq_self_of_all h,
      dropWhile_eq_self_of_all (fun c hc => h c (List.mem_reverse.mp hc)),
      List.reverse_reverse]

theorem replaceDot0L_eq_self : ∀ {l : List Char}, (∀ c ∈ l, c ≠ '.') →
    replaceDot0L l = l := by
  intro l
  induction l with
  | nil => intro _; rfl
  | cons c rest ih =>
    intro h
    cases rest with
    | nil => rfl
    | cons d rest2 =>
      have hc : c ≠ '.' := h c (by simp)
      simp only [replaceDot0L]
      rw [if_neg (fun hcd => hc hcd.1),
          ih (fun x hx => h x (List.mem_cons_of_mem _ hx))]

theorem replaceDot0L_append_dot0 : ∀ {l : List Char}, (∀ c ∈ l, c ≠ '.') →
    replaceDot0L (l ++ ['.', '0']) = l := by
  intro l
  induction l with
  | nil => intro _; rfl
  | cons c rest ih =>
    intro h
    have hc : c ≠ '.' := h c (by simp)
    cases rest with
    | nil =>
      have h1 : replaceDot0L ('.' :: ['0']) = [] := rfl
      show replaceDot0L (c :: '.' :: ['0']) = [c]
      simp only [replaceDot0L]
      rw [if_neg (fun hcd => hc hcd.1)]
      simp
    | cons d rest2 =>
      show replaceDot0L (c :: d :: (rest2 ++ ['.', '0'])) = c :: d :: rest2
      have hd : d ≠ '.' := h d (by simp)
      simp only [replaceDot0L]
      rw [if_neg (fun hcd => hc hcd.1)]
      have h2 := ih (fun x hx => h x (List.mem_cons_of_mem _ hx))
      rw [List.cons_append] at h2
      rw [h2]

theorem dot0SuffixL_eq_self {l : List Char} (h : ∀ c ∈ l, c ≠ '.') :
    dot0SuffixL l = l := by
  unfold dot0SuffixL
  split
  · next rest heq =>
    exfalso
    have hm : ('.' : Char) ∈ l.reverse := by rw [heq]; simp
    exact h '.' (List.mem_reverse.mp hm) rfl
  · rfl

theorem dot0SuffixL_append (l : List Char) : dot0SuffixL (l ++ ['.', '0']) = l := by
  have h2 : (l ++ ['.', '0']).reverse = '0' :: '.' :: l.reverse := by simp
  unfold dot0SuffixL
  split
  · next rest heq =>
    rw [h2] at heq
    injection heq with _ heq2
    injection heq2 with _ heq3
    rw [← heq3, List.reverse_reverse]
  · next hne =>
    exfalso
    exact hne l.reverse h2

theorem zfillL_nil (w : Nat) : zfillL [] w = List.replicate w '0' := by
  unfold zfillL
  split
  · next h =>
    have : w = 0 := Nat.le_zero.mp h
    subst this
    rfl
  · rfl

theorem zfillL_length (l : List Char) (w : Nat) : (zfillL l w).length = max l.length w := by
  unfold zfillL
  split
  · next h => omega
  · next h =>
    split
    · simp only [List.length_replicate, List.length_nil]
      omega
    · next c rest =>
      split
      · simp only [List.length_cons, List.length_append, List.length_replicate]
        omega
      · simp only [List.length_cons, List.length_append, List.length_replicate]
        omega

theorem zfillL_digits {l : List Char} (w : Nat) (h : ∀ c ∈ l, c.isDigit = true) :
    zfillL l w = List.replicate (w - l.length) '0' ++ l := by
  unfold zfillL
  split
  · next hw =>
    rw [Nat.sub_eq_zero_of_le hw]
    rfl
  · next hw =>
    split
    · simp
    · next c rest =>
      rw [if_neg]
      rintro (h1 | h1)
      · exact (isDigit_ne (h c (by simp))).2.1 h1
      · exact (isDigit_ne (h c (by simp))).2.2 h1

theorem cleanCodeL_digits {l : List Char} (h : ∀ c ∈ l, c.isDigit = true) :
    cleanCodeL l = l := by
  unfold cleanCodeL
  rw [pyStripL_eq_self (fun c hc => isDigit_not_ws (h c hc)),
      replaceDot0L_eq_self (fun c hc => (isDigit_ne (h c hc)).1),
      dot0SuffixL_eq_self (fun c hc => (isDigit_ne (h c hc)).1)]

theorem normalize_code_some (s : String) (w : Nat) :
    _normalize_code (some s) w = String.mk (zfillL (cleanCodeL s.data) w) := rfl

theorem normalize_code_spec_some (s : String) (w : Nat) :
    normalize_code_spec (some s) w =
      String.mk (List.replicate (w - ((dot0SuffixL (pyStripL s.data)).filter Char.isDigit).length) '0'
        ++ (dot0SuffixL (pyStripL s.data)).filter Char.isDigit) := rfl

theorem normalize_code_digits (l : List Char) (w : Nat) (h : ∀ c ∈ l, c.isDigit = true) :
    _normalize_code (some (String.mk l)) w = String.mk (zfillL l w) := by
  rw [normalize_code_some, show (String.mk l).data = l from rfl, cleanCodeL_digits h]

/-! Claim C2. -/

/-- Claim C2, counterexample: the claim says _normalize_code returns a
string of length exactly width for EVERY input, including strings with
more than width digits.  The input "123" at width 2 returns "123", whose
length is 3: python zfill pads but never truncates. -/
theorem normalize_code_width_counterexample :
    _normalize_code (some "123") 2 = "123" ∧
    (_normalize_code (some "123") 2).length ≠ 2 := by
  constructor
  · decide
  · decide

/-- Claim C2, amended: for every input value and width, _normalize_code is
total (it is a Lean function, hence never throws) and returns a string of
length max(width, length of the cleaned input) — always at least width,
and exactly width precisely when the cleaned input is at most width
characters long; an empty or missing input yields width zero characters. -/
theorem normalize_code_length (v : Cell) (w : Nat) :
    (_normalize_code v w).length = max (cleanedWidth v) w ∧
    _normalize_code none w = String.mk (List.replicate w '0') := by
  constructor
  · cases v with
    | none =>
      show (zfillL [] w).length = max (cleanedWidth none) w
      rw [zfillL_length]
      rfl
    | some s =>
      show (zfillL (cleanCodeL s.data) w).length = max (cleanCodeL s.data).length w
      rw [zfillL_length]
  · show String.mk (zfillL [] w) = String.mk (List.replicate w '0')
    rw [zfillL_nil]

/-! Claim C5. -/

/-- Claim C5, counterexample: on "1.05" with width 5 the code removes the
interior substring ".0" (str.replace with regex=False deletes every
occurrence, not only a trailing one) and returns "00015", while the
reference definition of the claim (drop non-digits, keep the interior
digits) returns "00105".  The two definitions disagree. -/
theorem normalize_code_ref_counterexample :
    _normalize_code (some "1.05") 5 = "00015" ∧
    normalize_code_spec (some "1.05") 5 = "00105" ∧
    _normalize_code (some "1.05") 5 ≠ normalize_code_spec (some "1.05") 5 := by
  refine ⟨by decide, by decide, by decide⟩

/-- Claim C5, amended: _normalize_code deletes every occurrence of the
literal substring ".0" (then a trailing ".0" again) and keeps non-digit
characters, so it agrees with the reference definition exactly on
well-behaved inputs: digit strings, optionally carrying one trailing ".0"
float artifact.  On such inputs both definitions strip the artifact and
left-pad the digits. -/
theorem normalize_code_spec_agrees (s : String) (w : Nat)
    (h : ∀ c ∈ s.data, c.isDigit = true) :
    _normalize_code (some s) w = normalize_code_spec (some s) w ∧
    _normalize_code (some (s ++ ".0")) w = normalize_code_spec (some (s ++ ".0")) w := by
  have hdot : ∀ c ∈ s.data, c ≠ '.' := fun c hc => (isDigit_ne (h c hc)).1
  have hnws : ∀ c ∈ s.data, c.isWhitespace = false := fun c hc => isDigit_not_ws (h c hc)
  have happdata : (s ++ ".0").data = s.data ++ ['.', '0'] := by
    rw [String.data_append]
  have hnws2 : ∀ c ∈ s.data ++ ['.', '0'], c.isWhitespace = false := by
    intro c hc
    rcases List.mem_append.mp hc with h1 | h1
    · exact hnws c h1
    · simp only [List.mem_cons, List.mem_singleton] at h1
      rcases h1 with rfl | rfl | h1
      · decide
      · decide
      · exact absurd h1 (List.not_mem_nil c)
  constructor
  · rw [normalize_code_some, normalize_code_spec_some]
    unfold cleanCodeL
    rw [pyStripL_eq_self hnws, replaceDot0L_eq_self hdot, dot0SuffixL_eq_self hdot,
        List.filter_eq_self.mpr h, zfillL_digits w h]
  · rw [normalize_code_some, normalize_code_spec_some, happdata]
    unfold cleanCodeL
    rw [pyStripL_eq_self hnws2, replaceDot0L_append_dot0 hdot,
        dot0SuffixL_eq_self hdot, dot0SuffixL_append,
        List.filter_eq_self.mpr h, zfillL_digits w h]

/-- Claim C5, witness for the amended theorem at the digit string "105":
both definitions return "00105" on "105" and on "105.0". -/
theorem normalize_code_spec_agrees_witness :
    _normalize_code (some "105") 5 = normalize_code_spec (some "105") 5 ∧
    _normalize_code (some ("105" ++ ".0")) 5 = normalize_code_spec (some ("105" ++ ".0")) 5 :=
  normalize_code_spec_agrees "105" 5 (by decide)

theorem zfillL_of_le {l : List Char} {w : Nat} (h : w ≤ l.length) : zfillL l w = l := by
  unfold zfillL
  rw [if_pos h]

theorem isPrefixOf_append_self (a b : List Char) : a.isPrefixOf (a ++ b) = true := by
  induction a with
  | nil => simp [List.isPrefixOf]
  | cons c rest ih => simp [List.isPrefixOf, ih]

/-! Claim C3. -/

/-- Claim C3 (code bug): the repository test fixture
(tests/test_data_loader.py, synthetic_env) provides exactly one synonym
column for each of the six canonical fields and the test expects the read
to succeed, so by the claim no missing-columns error may be raised; but
_prepare_records computes set(RECORDS_COLUMN_MAP) - available, demanding
EVERY synonym spelling, and raises the missing-columns structural error
listing the seven absent synonym spellings. -/
theorem records_missing_columns_bug :
    standardColumns.all (fun f => RECORDS_COLUMN_MAP.any
      (fun kv => kv.2 == f && testFixtureTable.cols.contains kv.1)) = true ∧
    _prepare_records testFixtureTable =
      .error ("Columnas faltantes en registros principales: " ++
        "DEPTO_OCURRE, MUNI_OCURRE, SEXO_DEF, FECHA_OCURR, COD_DEPARTAMENTO, COD_MUNICIPIO, COD_MUERTE") := by
  constructor
  · decide
  · decide

/-! Claim C9. -/

/-- Claim C9: date-parsing failures are handled asymmetrically by scheme.
In the date-columns (strict) branch every read aborts with an error — the
missing-columns check demands every synonym spelling, and when all of them
are present the rename duplicates the canonical labels and the strict
pd.to_datetime call of line 202 fails — so in particular any read
containing an unparseable date aborts.  In the year/month (lenient)
branch the month-13 row of lenientTable cannot form a date, is silently
dropped by dropna, and the read succeeds with the two remaining rows. -/
theorem date_error_asymmetry :
    (∀ tbl : RawTable,
        (tbl.cols.contains "FECHA_DEF" || tbl.cols.contains "FECHA_OCURR") = true →
        ∃ e, _prepare_records tbl = .error e) ∧
    _prepare_records lenientTable = .ok [lenientRecord1, lenientRecord3] := by
  constructor
  · intro tbl h
    unfold _prepare_records
    rw [if_pos h]
    dsimp only
    by_cases hm : ((RECORDS_COLUMN_MAP.map Prod.fst).filter
        (fun k => ¬ tbl.cols.contains k)).isEmpty = true
    · exact ⟨_, by rw [if_pos hm]⟩
    · exact ⟨_, by rw [if_neg hm]⟩
  · decide

/-- Claim C9, witness: the strict branch aborts on a concrete table. -/
theorem date_error_asymmetry_witness :
    ∃ e, _prepare_records strictTable = .error e :=
  date_error_asymmetry.1 strictTable (by decide)

/-! Claim C4. -/

/-- Claim C4, counterexample: on the year/month branch that takes the
municipality code directly from COD_DANE, nothing ties it to the
department column: with COD_DANE 99999 and COD_DEPARTAMENTO 05 the
emitted record has muni_cod "99999", which does not start with
depto_cod "05". -/
theorem muni_prefix_counterexample :
    _prepare_records daneTable = .ok [daneRecord] ∧
    strStartsWith daneRecord.muni_cod daneRecord.depto_cod = false := by
  constructor
  · decide
  · decide

/-- Claim C4, amended: the prefix invariant is not enforced by the code;
it does hold on the year/month branch WITHOUT a COD_DANE column whenever
the department and municipality cells are plain digit strings of at most
2 and 3 characters, because there the municipality code is built as the
zero-filled department code concatenated with the zero-filled
municipality code (lines 211-215) and the final normalizations of lines
246-247 leave those digit strings intact. -/
theorem muni_prefix_amended (r : Row) (rec : Record) (d m : String)
    (hd : rowGet r "COD_DEPARTAMENTO" = some d)
    (hm : rowGet r "COD_MUNICIPIO" = some m)
    (hdd : ∀ c ∈ d.data, c.isDigit = true) (hmd : ∀ c ∈ m.data, c.isDigit = true)
    (hdl : d.data.length ≤ 2) (hml : m.data.length ≤ 3)
    (hok : finalizeRecord (ymBuild false r) = .ok rec) :
    strStartsWith rec.muni_cod rec.depto_cod = true := by
  have hstripd : pyStrip d = d := by
    unfold pyStrip
    rw [pyStripL_eq_self (fun c hc => isDigit_not_ws (hdd c hc))]
  have hstripm : pyStrip m = m := by
    unfold pyStrip
    rw [pyStripL_eq_self (fun c hc => isDigit_not_ws (hmd c hc))]
  have hdep : (ymBuild false r).depto_cod = some d := hd
  have hmun : (ymBuild false r).muni_cod =
      some (zfillS (pyStrip d) 2 ++ zfillS (pyStrip m) 3) := by
    show optConcat ((rowGet r "COD_DEPARTAMENTO").map (fun s => zfillS (pyStrip s) 2))
        ((rowGet r "COD_MUNICIPIO").map (fun s => zfillS (pyStrip s) 3)) =
      some (zfillS (pyStrip d) 2 ++ zfillS (pyStrip m) 3)
    rw [hd, hm]
    rfl
  rw [hstripd, hstripm] at hmun
  have hcat : (zfillS d 2 ++ zfillS m 3).data = zfillL d.data 2 ++ zfillL m.data 3 := rfl
  have hdigits : ∀ c ∈ (zfillS d 2 ++ zfillS m 3).data, c.isDigit = true := by
    rw [hcat, zfillL_digits 2 hdd, zfillL_digits 3 hmd]
    intro c hc
    rcases List.mem_append.mp hc with h1 | h1
    · rcases List.mem_append.mp h1 with h2 | h2
      · rw [List.eq_of_mem_replicate h2]
        decide
      · exact hdd c h2
    · rcases List.mem_append.mp h1 with h2 | h2
      · rw [List.eq_of_mem_replicate h2]
        decide
      · exact hmd c h2
  have hlen : 5 ≤ (zfillS d 2 ++ zfillS m 3).data.length := by
    rw [hcat]
    simp only [List.length_append, zfillL_length]
    omega
  cases hge : toNumericInt (ymBuild false r).grupo_edad with
  | error e =>
    unfold finalizeRecord at hok
    rw [hge] at hok
    simp at hok
  | ok ge =>
    unfold finalizeRecord at hok
    rw [hge] at hok
    cases hf : (ymBuild false r).fecha with
    | none =>
      rw [hf] at hok
      simp at hok
    | some dt =>
      rw [hf] at hok
      dsimp only at hok
      injection hok with hok2
      subst hok2
      show strStartsWith (_normalize_code (ymBuild false r).muni_cod 5)
          (_normalize_code (ymBuild false r).depto_cod 2) = true
      rw [hdep, hmun]
      have h5 : _normalize_code (some (zfillS d 2 ++ zfillS m 3)) 5 =
          String.mk (zfillL d.data 2 ++ zfillL m.data 3) := by
        have := normalize_code_digits (zfillS d 2 ++ zfillS m 3).data 5
          (by intro c hc; exact hdigits c hc)
        rw [show String.mk (zfillS d 2 ++ zfillS m 3).data = zfillS d 2 ++ zfillS m 3 from rfl]
          at this
        rw [this, zfillL_of_le hlen, hcat]
      have h2 : _normalize_code (some d) 2 = String.mk (zfillL d.data 2) := by
        have := normalize_code_digits d.data 2 hdd
        rw [show String.mk d.data = d from rfl] at this
        exact this
      rw [h5, h2]
      show (zfillL d.data 2).isPrefixOf (zfillL d.data 2 ++ zfillL m.data 3) = true
      exact isPrefixOf_append_self _ _

/-- Claim C4, witness for the amended theorem: a concrete year/month row
with digit codes 5 and 1 produces depto_cod "05" and muni_cod "05001". -/
theorem muni_prefix_amended_witness :
    strStartsWith ymRecW.muni_cod ymRecW.depto_cod = true :=
  muni_prefix_amended ymRowW ymRecW "5" "1" (by decide) (by decide) (by decide)
    (by decide) (by decide) (by decide) (by decide)

theorem dedupGo_find {α β : Type} (f : α → β) [DecidableEq β] (k : β) :
    ∀ (seen : List β) (l : List α), k ∉ seen →
      (dedupGo f seen l).find? (fun e => decide (f e = k)) =
        l.find? (fun e => decide (f e = k)) := by
  intro seen l
  induction l generalizing seen with
  | nil => intro _; rfl
  | cons x xs ih =>
    intro hk
    unfold dedupGo
    by_cases hx : f x ∈ seen
    · rw [if_pos hx]
      have hfx : f x ≠ k := fun he => hk (he ▸ hx)
      rw [ih seen hk, List.find?_cons_of_neg _ (by simp [hfx])]
    · rw [if_neg hx]
      by_cases hfx : f x = k
      · rw [List.find?_cons_of_pos _ (by simp [hfx]),
            List.find?_cons_of_pos _ (by simp [hfx])]
      · have hk2 : k ∉ f x :: seen := by
          intro hmem
          rcases List.mem_cons.mp hmem with he | he
          · exact hfx he.symm
          · exact hk he
        rw [List.find?_cons_of_neg _ (by simp [hfx]),
            List.find?_cons_of_neg _ (by simp [hfx])]
        exact ih (f x :: seen) hk2

theorem dedupGo_nodup {α β : Type} (f : α → β) [DecidableEq β] :
    ∀ (seen : List β) (l : List α),
      ((dedupGo f seen l).map f).Nodup ∧
        ∀ b ∈ (dedupGo f seen l).map f, b ∉ seen := by
  intro seen l
  induction l generalizing seen with
  | nil => exact ⟨by simp [dedupGo], by simp [dedupGo]⟩
  | cons x xs ih =>
    unfold dedupGo
    by_cases hx : f x ∈ seen
    · rw [if_pos hx]
      exact ih seen
    · rw [if_neg hx]
      obtain ⟨hnd, hnotin⟩ := ih (f x :: seen)
      constructor
      · rw [List.map_cons, List.nodup_cons]
        exact ⟨fun hmem => (hnotin _ hmem) (List.mem_cons_self _ _), hnd⟩
      · intro b hb
        rw [List.map_cons, List.mem_cons] at hb
        rcases hb with rfl | hb
        · exact hx
        · exact fun hbs => (hnotin b hb) (List.mem_cons_of_mem _ hbs)

theorem filter_length_le_one {β γ : Type} (f : β → γ) [DecidableEq γ] (l : List β)
    (hn : (l.map f).Nodup) (q : β → Bool) (k : γ) (hq : ∀ b, q b = true → f b = k) :
    (l.filter q).length ≤ 1 := by
  induction l with
  | nil => simp
  | cons b l ih =>
    rw [List.map_cons, List.nodup_cons] at hn
    obtain ⟨hb, hn2⟩ := hn
    by_cases hqb : q b = true
    · rw [List.filter_cons_of_pos hqb]
      have hnil : l.filter q = [] := by
        rw [List.filter_eq_nil_iff]
        intro a ha hqa
        exact hb (by
          rw [show f b = f a from (hq b hqb).trans (hq a hqa).symm]
          exact List.mem_map_of_mem f ha)
      rw [hnil]
      simp
    · rw [List.filter_cons_of_neg (by simpa using hqb)]
      exact ih hn2

theorem leftJoin_length {α β : Type} (left : List α) (right : List β) (p : α → β → Bool)
    (h : ∀ a, (right.filter (p a)).length ≤ 1) :
    (leftJoin left right p).length = left.length := by
  induction left with
  | nil => rfl
  | cons a l ih =>
    unfold leftJoin at ih ⊢
    rw [List.flatMap_cons, List.length_append, ih]
    have hone : (match right.filter (p a) with
        | [] => [(a, none)]
        | ms => ms.map (fun b => (a, some b))).length = 1 := by
      cases hf : right.filter (p a) with
      | nil => rfl
      | cons b ms =>
        have hle := h a
        rw [hf] at hle
        have hms : ms = [] := by
          cases ms with
          | nil => rfl
          | cons c cs => simp at hle
        subst hms
        rfl
    rw [hone, List.length_cons]
    omega

/-! Claim C8. -/

/-- Claim C8, counterexample: a wide row whose 4-character description
cell is missing (a blank spreadsheet cell read as NaN) renders through
python str() as the text "nan", which is truthy, so the or-chain of line
290 does NOT fall back to the 3-character description: the emitted
4-character entry carries the literal description "nan" instead of
"Colera". -/
theorem cause_expansion_counterexample :
    emitWideRow wideRowNan =
      [{ causa_cod := "A10", causa := "Colera" },
       { causa_cod := "A109", causa := "nan" }] ∧
    ("nan" : String) ≠ "Colera" := by
  constructor
  · decide
  · decide

/-- Claim C8, amended: for every wide-format row holding a non-empty
non-"nan" 3-character code and a distinct non-empty non-"nan" 4-character
code, _prepare_causes emits two separate catalog entries; the 4-character
description falls back to the (emitted) 3-character description exactly
when the 4-character description cell STRIPS TO THE EMPTY STRING — a
missing cell instead becomes the literal text "nan" and is kept.  Across
all emitted entries, drop_duplicates keeps the first occurrence of each
cause code: the deduplicated list answers every key lookup exactly as the
raw emission list does, and its keys are pairwise distinct. -/
theorem cause_expansion_amended :
    (∀ r : WideRow,
        pyStrip (cellText r.code3) ≠ "" →
        strLower (pyStrip (cellText r.code3)) ≠ "nan" →
        pyStrip (cellText r.code4) ≠ "" →
        strLower (pyStrip (cellText r.code4)) ≠ "nan" →
        strUpper (pyStrip (cellText r.code3)) ≠ strUpper (pyStrip (cellText r.code4)) →
        ∃ d3 d4,
          emitWideRow r =
            [{ causa_cod := strUpper (pyStrip (cellText r.code3)), causa := d3 },
             { causa_cod := strUpper (pyStrip (cellText r.code4)), causa := d4 }] ∧
          (pyStrip (cellText r.desc4) = "" → d4 = d3)) ∧
    (∀ (l : List CauseEntry) (k : String),
        (dedupKeepFirst CauseEntry.causa_cod l).find? (fun e => decide (e.causa_cod = k)) =
          l.find? (fun e => decide (e.causa_cod = k))) ∧
    (∀ l : List CauseEntry,
        ((dedupKeepFirst CauseEntry.causa_cod l).map CauseEntry.causa_cod).Nodup) := by
  refine ⟨?_, ?_, ?_⟩
  · intro r h1 h2 h3 h4 _
    refine ⟨if pyStrip (cellText r.desc3) = "" then "Sin descripción"
              else pyStrip (cellText r.desc3),
            if pyStrip (cellText r.desc4) ≠ "" then pyStrip (cellText r.desc4)
              else if pyStrip (cellText r.desc3) ≠ "" then pyStrip (cellText r.desc3)
              else "Sin descripción", ?_, ?_⟩
    · unfold emitWideRow
      dsimp only
      rw [if_pos (And.intro h1 h2), if_pos (And.intro h3 h4)]
      rfl
    · intro hblank
      by_cases hd3 : pyStrip (cellText r.desc3) = ""
      · rw [if_neg (fun hne => hne hblank), if_neg (fun hne => hne hd3), if_pos hd3]
      · rw [if_neg (fun hne => hne hblank), if_pos hd3, if_neg hd3]
  · intro l k
    exact dedupGo_find CauseEntry.causa_cod k [] l (by simp)
  · intro l
    exact (dedupGo_nodup CauseEntry.causa_cod [] l).1

/-- Claim C8, witness: a concrete wide row with a whitespace-only
4-character description, which does fall back to the 3-character
description. -/
theorem cause_expansion_amended_witness :
    ∃ d3 d4,
      emitWideRow wideRowBlank =
        [{ causa_cod := strUpper (pyStrip (cellText wideRowBlank.code3)), causa := d3 },
         { causa_cod := strUpper (pyStrip (cellText wideRowBlank.code4)), causa := d4 }] ∧
      (pyStrip (cellText wideRowBlank.desc4) = "" → d4 = d3) :=
  cause_expansion_amended.1 wideRowBlank (by decide) (by decide) (by decide)
    (by decide) (by decide)

/-! Claim C10. -/

/-- Claim C10: the two left joins of _merge_datasets never multiply
mortality rows.  _prepare_causes ends with drop_duplicates on causa_cod
and _prepare_divipola ends with drop_duplicates on the composite key, so
both right-hand tables are key-unique; the geography join additionally
passes its many_to_one assertion, and the merged output has exactly one
row per input mortality record. -/
theorem merge_preserves_rows (records : List Record) (rows : List WideRow)
    (causes : List CauseEntry) (rawGeo : List GeoRow)
    (hc : _prepare_causes_wide rows = .ok causes) :
    ∃ out, _merge_datasets records causes (dedupKeepFirst geoKey rawGeo) = .ok out ∧
      out.length = records.length := by
  unfold _prepare_causes_wide at hc
  dsimp only at hc
  by_cases he : ((rows.filter rowNotAllNa).flatMap emitWideRow).isEmpty = true
  · rw [if_pos he] at hc
    exact absurd hc (by simp)
  · rw [if_neg he] at hc
    injection hc with hc2
    have hcn : (causes.map CauseEntry.causa_cod).Nodup := by
      rw [← hc2]
      exact (dedupGo_nodup CauseEntry.causa_cod [] _).1
    have hgn : ((dedupKeepFirst geoKey rawGeo).map geoKey).Nodup :=
      (dedupGo_nodup geoKey [] rawGeo).1
    unfold _merge_datasets
    rw [if_pos hgn]
    refine ⟨_, rfl, ?_⟩
    rw [List.length_map]
    rw [leftJoin_length _ _ _ (fun a => filter_length_le_one geoKey _ hgn _
      (a.1.depto_cod, a.1.muni_cod)
      (fun g hg => by
        have hp := of_decide_eq_true hg
        exact Prod.ext hp.1.symm hp.2.symm))]
    rw [leftJoin_length _ _ _ ?_]
    intro r
    cases r.causa_cod with
    | none =>
      have hnil2 : causes.filter (fun c => decide ((none : Option String) = some c.causa_cod)) = [] := by
        rw [List.filter_eq_nil_iff]
        intro c _ hq
        exact Option.noConfusion (of_decide_eq_true hq)
      rw [hnil2]
      simp
    | some s =>
      exact filter_length_le_one CauseEntry.causa_cod _ hcn _ s
        (fun c hq => (Option.some.inj (of_decide_eq_true hq)).symm)

/-- Claim C10, witness: one record, a two-entry cause catalog produced by
_prepare_causes, and a geography table listed with a duplicate that the
deduplication removes; the merge returns exactly one row. -/
theorem merge_preserves_rows_witness :
    ∃ out, _merge_datasets [daneRecord] [⟨"A10", "C"⟩, ⟨"A109", "D"⟩]
        (dedupKeepFirst geoKey [geoRowW, geoRowW]) = .ok out ∧
      out.length = [daneRecord].length :=
  merge_preserves_rows [daneRecord] wideRowsW [⟨"A10", "C"⟩, ⟨"A109", "D"⟩]
    [geoRowW, geoRowW] (by decide)

theorem fillMissing_keep {α : Type} (a b c : Option α) (v : α) (hv : a = some v) :
    fillMissing (fillMissing a b) c = some v := by
  rw [hv]
  rfl

theorem fillMissing_fill {α : Type} (a b c : Option α) (v : α)
    (ha : a = none) (hb : b = some v) :
    fillMissing (fillMissing a b) c = some v := by
  rw [ha]
  show fillMissing b c = some v
  rw [hb]
  rfl

/-! Claim C6. -/

/-- Claim C6: the geographic enrichment applies the embedded secondary
sheet first (lines 355-390) and the external coordinate catalog second
(lines 392-434); each merge fills a field only when it is currently
missing and never overwrites a present value, so when the primary catalog
has a missing field and both sources supply one, the embedded sheet wins.
The first conjunct group states never-overwrite for the four fields, the
second states the embedded-sheet precedence on missing fields. -/
theorem geo_enrichment_precedence (k : String × String) (f g1 g2 : GeoFields)
    (emb csv : List ((String × String) × GeoFields))
    (h1 : lookupGeo emb k = some g1) (h2 : lookupGeo csv k = some g2) :
    ((∀ v, f.depto = some v → (enrichRow k f emb csv).depto = some v) ∧
     (∀ v, f.municipio = some v → (enrichRow k f emb csv).municipio = some v) ∧
     (∀ v, f.lat = some v → (enrichRow k f emb csv).lat = some v) ∧
     (∀ v, f.lon = some v → (enrichRow k f emb csv).lon = some v)) ∧
    ((∀ v, f.depto = none → g1.depto = some v →
        (enrichRow k f emb csv).depto = some v) ∧
     (∀ v, f.municipio = none → g1.municipio = some v →
        (enrichRow k f emb csv).municipio = some v) ∧
     (∀ v, f.lat = none → g1.lat = some v → (enrichRow k f emb csv).lat = some v) ∧
     (∀ v, f.lon = none → g1.lon = some v → (enrichRow k f emb csv).lon = some v)) := by
  have he : enrichRow k f emb csv = fillGeo (fillGeo f g1) g2 := by
    unfold enrichRow
    rw [h1, h2]
  refine ⟨⟨?_, ?_, ?_, ?_⟩, ?_, ?_, ?_, ?_⟩
  · intro v hv
    rw [he]
    exact fillMissing_keep f.depto g1.depto g2.depto v hv
  · intro v hv
    rw [he]
    exact fillMissing_keep f.municipio g1.municipio g2.municipio v hv
  · intro v hv
    rw [he]
    exact fillMissing_keep f.lat g1.lat g2.lat v hv
  · intro v hv
    rw [he]
    exact fillMissing_keep f.lon g1.lon g2.lon v hv
  · intro v h0 hv
    rw [he]
    exact fillMissing_fill f.depto g1.depto g2.depto v h0 hv
  · intro v h0 hv
    rw [he]
    exact fillMissing_fill f.municipio g1.municipio g2.municipio v h0 hv
  · intro v h0 hv
    rw [he]
    exact fillMissing_fill f.lat g1.lat g2.lat v h0 hv
  · intro v h0 hv
    rw [he]
    exact fillMissing_fill f.lon g1.lon g2.lon v h0 hv

/-- Claim C6, witness: a primary row missing its department name takes the
embedded value "Antioquia" even though the external catalog also supplies
one, and its present municipality name "X" is never overwritten. -/
theorem geo_enrichment_precedence_witness :
    (enrichRow geoKeyW geoPrimaryW geoEmbW geoCsvW).depto = some "Antioquia" ∧
    (enrichRow geoKeyW geoPrimaryW geoEmbW geoCsvW).municipio = some "X" :=
  ⟨(geo_enrichment_precedence geoKeyW geoPrimaryW
      ⟨some "Antioquia", none, some 6, none⟩ ⟨some "ANTIOQUIA", some "Y", some 7, some 8⟩
      geoEmbW geoCsvW (by decide) (by decide)).2.1 "Antioquia" rfl rfl,
   (geo_enrichment_precedence geoKeyW geoPrimaryW
      ⟨some "Antioquia", none, some 6, none⟩ ⟨some "ANTIOQUIA", some "Y", some 7, some 8⟩
      geoEmbW geoCsvW (by decide) (by decide)).1.2.1 "X" rfl⟩

/-! Claims C1 and C7: cache-path validation and idempotence. -/

theorem validateSchema_ok {b : Bool} {df out : List FinalRow}
    (hval : validateSchema b df = .ok out) :
    schemaViolations df = [] ∧ out = df := by
  unfold validateSchema at hval
  cases hvi : schemaViolations df with
  | nil =>
    rw [hvi] at hval
    dsimp only at hval
    injection hval with h
    exact ⟨rfl, h.symm⟩
  | cons v vs =>
    rw [hvi] at hval
    dsimp only at hval
    exact absurd hval (by simp)

/-- Claim C1, counterexample: fsCorrupt holds a FRESH cache artifact whose
frame violates two independent schema rules (sexo outside the allowed set
and anio not 2019).  The cache-hit path of load_data validates without
lazy=True (line 502) and reports ONLY the first violating rule, while the
rule set has two violations — the same frame validated on the fresh-run
path (lazy=True, line 524) would aggregate both. -/
theorem cache_validation_counterexample :
    load_data [] fsCorrupt false 9 = (.error ["sexo: isin F M NR"], fsCorrupt) ∧
    schemaViolations [badRow] = ["sexo: isin F M NR", "anio: eq 2019"] ∧
    validateSchema true [badRow] = .error ["sexo: isin F M NR", "anio: eq 2019"] := by
  refine ⟨by decide, by decide, by decide⟩

/-- Claim C1, amended: validation on cache load runs the same rule set but
in fail-fast mode: whenever the cached frame violates any rules, the
cache-hit path of load_data raises an error naming only the FIRST
violating column/rule pair in schema order, whereas the fresh-run lazy
validation of the same frame aggregates the full list. -/
theorem cache_validation_fail_fast (computed df : List FinalRow) (fs : FsState)
    (now mt : Nat) (v : String) (vs : List String)
    (hc : fs.cache = some (df, mt))
    (hmt : _latest_modification fs.sources ≤ mt)
    (hv : schemaViolations df = v :: vs) :
    load_data computed fs false now = (.error [v], fs) ∧
    validateSchema true df = .error (v :: vs) := by
  constructor
  · unfold load_data
    rw [hc]
    dsimp only
    rw [if_pos (And.intro rfl hmt)]
    unfold validateSchema
    rw [hv]
    rfl
  · unfold validateSchema
    rw [hv]
    rfl

/-- Claim C1, witness for the amended theorem at the concrete corrupt
cache state. -/
theorem cache_validation_fail_fast_witness :
    load_data [] fsCorrupt false 9 = (.error ["sexo: isin F M NR"], fsCorrupt) ∧
    validateSchema true [badRow] = .error ["sexo: isin F M NR", "anio: eq 2019"] :=
  cache_validation_fail_fast [] [badRow] fsCorrupt 9 5
    "sexo: isin F M NR" ["anio: eq 2019"] (by decide) (by decide) (by decide)

theorem runPipeline_ok {computed d : List FinalRow} {fs fs1 : FsState} {t : Nat}
    (hr : runPipeline computed fs t = (.ok d, fs1)) :
    d = computed ∧ schemaViolations computed = [] ∧
      fs1 = { sources := fs.sources, cache := some (d, t) } := by
  unfold runPipeline at hr
  cases hval : validateSchema true computed with
  | error e =>
    rw [hval] at hr
    dsimp only at hr
    rw [Prod.mk.injEq] at hr
    exact absurd hr.1 (by simp)
  | ok dd =>
    rw [hval] at hr
    dsimp only at hr
    rw [Prod.mk.injEq] at hr
    obtain ⟨hr1, hr2⟩ := hr
    injection hr1 with hdd
    obtain ⟨hvi, hdc⟩ := validateSchema_ok hval
    subst hdd
    exact ⟨hdc, hvi, hr2.symm⟩

/-- Claim C7: calling load_data a second time with force_refresh false,
when the artifact exists with modification time at or above the newest
source, returns the same dataset as the first successful run and leaves
the filesystem state — in particular the cache artifact and its
modification time — untouched: the artifact is written only on the
STALE/pipeline path (runPipeline), never on the cache-hit path. -/
theorem load_data_idempotent (computed : List FinalRow) (fs fs1 : FsState)
    (force1 : Bool) (now1 now2 : Nat) (d df1 : List FinalRow) (mt1 : Nat)
    (h1 : load_data computed fs force1 now1 = (.ok d, fs1))
    (hc : fs1.cache = some (df1, mt1))
    (hmt : _latest_modification fs1.sources ≤ mt1) :
    load_data computed fs1 false now2 = (.ok d, fs1) := by
  have secondCall : df1 = d → schemaViolations df1 = [] →
      load_data computed fs1 false now2 = (.ok d, fs1) := by
    intro hdd hvi
    subst hdd
    unfold load_data
    rw [hc]
    dsimp only
    rw [if_pos (And.intro rfl hmt)]
    unfold validateSchema
    rw [hvi]
  have pipelineCase : runPipeline computed fs now1 = (.ok d, fs1) →
      load_data computed fs1 false now2 = (.ok d, fs1) := by
    intro hr
    obtain ⟨hdc, hvi, hfs1⟩ := runPipeline_ok hr
    have hcache1 : fs1.cache = some (d, now1) := by rw [hfs1]
    rw [hcache1] at hc
    injection hc with hpair
    rw [Prod.mk.injEq] at hpair
    have hdf1 : df1 = d := hpair.1.symm
    exact secondCall hdf1 (by rw [hdf1, hdc]; exact hvi)
  unfold load_data at h1
  cases hcache : fs.cache with
  | none =>
    rw [hcache] at h1
    dsimp only at h1
    exact pipelineCase h1
  | some p =>
    obtain ⟨df0, mt0⟩ := p
    rw [hcache] at h1
    dsimp only at h1
    by_cases hcond : force1 = false ∧ _latest_modification fs.sources ≤ mt0
    · rw [if_pos hcond] at h1
      rw [Prod.mk.injEq] at h1
      obtain ⟨h1a, h1b⟩ := h1
      obtain ⟨hvi0, hd0⟩ := validateSchema_ok h1a
      subst h1b
      rw [hcache] at hc
      injection hc with hpair
      rw [Prod.mk.injEq] at hpair
      refine secondCall ?_ ?_
      · rw [← hpair.1, ← hd0]
      · rw [← hpair.1]
        exact hvi0
    · rw [if_neg hcond] at h1
      exact pipelineCase h1

/-- Claim C7, witness: a first run from an empty cache writes the artifact
at time 5; the second call at time 9 with sources last modified at 3
returns the same dataset and the identical filesystem state. -/
theorem load_data_idempotent_witness :
    load_data [goodRow] fsAfter false 9 = (.ok [goodRow], fsAfter) :=
  load_data_idempotent [goodRow] fsStart fsAfter false 5 9 [goodRow] [goodRow] 5
    (by decide) (by decide) (by decide)

end Mortalidad
